import Mathlib

/-!
Shallow embedding of the lesson-assembly pipeline of tts.py
(jrovu/LinguaFreq-text2speech).

External processes (AWS Polly, ffmpeg) are modelled as an oracle
of type List String → ProcResult: the oracle receives the command line
exactly as tts.py builds it and returns the exit code and captured
output.  tts.py calls subprocess.run with capture_output=True and never
inspects the returned process object beyond logging, so the embedded
functions consume the oracle result and discard it; the value each
function returns is the file name it computes, exactly as in the source.

String-valued file names are modelled by Lean String; the Python
str.replace used in convert_pcm_to_wav is modelled by a character-list
function with the same semantics (replace every non-overlapping
occurrence of ".pcm", scanning left to right).
-/

/-- Result of one external process invocation (subprocess.run):
exit code plus captured standard output and standard error. -/
structure ProcResult where
  exitCode : Int
  stdout : String
  stderr : String

/-- The module-level settings of tts.py (lines 127 to 135), read once
from the command line at startup. -/
structure Config where
  output_dir : String
  foreign_voice_id : String
  english_voice_id : String
  voice_speed : Nat
  foreign_voice_engine : String
  english_voice_engine : String
deriving DecidableEq

/-- tts.py line 138. -/
def template_0_dir : String := "FW-EW/"

/-- tts.py line 139. -/
def template_1_dir : String := "EW-FW/"

/-- tts.py line 140. -/
def template_2_dir : String := "FW-EW-FP-EP/"

/-- tts.py line 141. -/
def template_3_dir : String := "EW-FW-EP-FP/"

/-- tts.py line 142. -/
def template_4_dir : String := "EP/"

/-- tts.py line 143. -/
def template_5_dir : String := "FP/"

/-- tts.py line 144. -/
def template_6_dir : String := "FP+Pause/"

/-- tts.py line 145. -/
def template_7_dir : String := "FP+Pause (Slow)/"

/-- tts.py line 146. -/
def template_8_dir : String := "Pyramid/"

/-- tts.py line 147. -/
def workspace_dir : String := "_Workspace/"

/-- Record of one AWS Polly synthesis invocation: the four data
arguments of create_pcm_from_ssml (tts.py line 181). -/
structure PollyCall where
  voice_id : String
  engine : String
  ssml : String
  filename : String
deriving DecidableEq

/-- The aws polly command line built at tts.py lines 188 to 197. -/
def polly_cmd (voice_id engine ssml_text filename : String) : List String :=
  [("aws"), ("polly"), ("synthesize-speech"),
   ("--output-format"), ("pcm"),
   ("--sample-rate"), ("16000"),
   ("--text-type"), ("ssml"),
   ("--voice-id"), voice_id,
   ("--engine"), engine,
   ("--text"), ssml_text,
   filename]

/-- tts.py lines 181 to 202: runs the aws polly command and ignores the
process result (subprocess.run without check; stdout and stderr are only
logged).  Returns the record of the call for the run trace. -/
def create_pcm_from_ssml (run : List String → ProcResult)
    (voice_id engine ssml_text filename : String) : PollyCall :=
  let _ := run (polly_cmd voice_id engine ssml_text filename)
  ⟨voice_id, engine, ssml_text, filename⟩

/-- Python str.replace of the pattern ".pcm" by ".wav": replace every
non-overlapping occurrence, scanning left to right (tts.py line 210). -/
def replace_pcm_wav : List Char → List Char
  | '.' :: 'p' :: 'c' :: 'm' :: rest => '.' :: 'w' :: 'a' :: 'v' :: replace_pcm_wav rest
  | c :: rest => c :: replace_pcm_wav rest
  | [] => []

/-- Whether a character list starts with the pattern ".pcm". -/
def starts_pcm : List Char → Bool
  | '.' :: 'p' :: 'c' :: 'm' :: _ => true
  | _ => false

/-- Whether the pattern ".pcm" occurs anywhere in a character list. -/
def has_pcm : List Char → Bool
  | [] => false
  | c :: rest => starts_pcm (c :: rest) || has_pcm rest

/-- tts.py lines 206 to 229: converts a PCM file to WAV; the output file
name is the input name with ".pcm" replaced by ".wav" (Python
str.replace replaces every occurrence).  The ffmpeg invocation result is
ignored as in the source. -/
def convert_pcm_to_wav (run : List String → ProcResult) (input_filename : String) : String :=
  let output_filename := String.mk (replace_pcm_wav input_filename.data)
  let _ := run ([("ffmpeg"), ("-y"), ("-f"), ("s16le"), ("-ar"), ("16000"),
                 ("-ac"), ("1"), ("-i"), input_filename, output_filename])
  output_filename

/-- The SSML wrapper of tts.py line 303 with an arbitrary body:
speak and prosody elements carrying the speed percentage. -/
def ssml_wrap (voice_speed : Nat) (body : String) : String :=
  ("<speak><prosody rate=\x27") ++ toString voice_speed ++ ("%\x27>") ++ body
    ++ ("</prosody></speak>")

/-- tts.py lines 303 to 304: the text is interpolated verbatim into the
SSML payload. -/
def ssml_text_of (voice_speed : Nat) (text : String) : String :=
  ssml_wrap voice_speed text

/-- tts.py lines 296 to 311: builds the SSML payload and the workspace
PCM file name, calls Polly, converts to WAV.  Returns the WAV file name
together with the recorded synthesis call. -/
def text_to_wav (cfg : Config) (run : List String → ProcResult)
    (voice_id voice_engine text : String) (voice_speed : Nat) : String × PollyCall :=
  let ssml_text := ssml_text_of voice_speed text
  let pcm_filename := cfg.output_dir ++ workspace_dir ++ voice_id ++ (" - ") ++ text
    ++ (" - ") ++ toString voice_speed ++ (".pcm")
  let call := create_pcm_from_ssml run voice_id voice_engine ssml_text pcm_filename
  (convert_pcm_to_wav run pcm_filename, call)

/-- tts.py line 245: Python str.replace of a single quote by the four
characters quote backslash quote quote, applied per character. -/
def ffmpeg_escape_chars : List Char → List Char
  | [] => []
  | c :: rest =>
    (if c = Char.ofNat 39 then
      [Char.ofNat 39, Char.ofNat 92, Char.ofNat 39, Char.ofNat 39]
    else [c]) ++ ffmpeg_escape_chars rest

/-- The escaped form of one file name written to the ffmpeg concat list
(tts.py line 245). -/
def ffmpeg_escape (filename : String) : String :=
  String.mk (ffmpeg_escape_chars filename.data)

/-- One line of the ffmpeg concat list file (tts.py line 246). -/
def concat_line (filename : String) : String :=
  ("file \x27") ++ ffmpeg_escape filename ++ ("\x27\n")

/-- tts.py lines 240 to 246: the concat list file is written by one
sequential append per playlist entry, in playlist order. -/
def concat_list_content (audio_files : List String) : String :=
  audio_files.foldl (fun acc filename => acc ++ concat_line filename) ("")

/-- tts.py lines 233 to 270: writes the concat list, runs ffmpeg concat,
returns the output file name.  The ffmpeg result is ignored as in the
source.  (The derivation of the transient list-file name at line 236 is
incidental bookkeeping and is not modelled.) -/
def concat_wav_files (run : List String → ProcResult)
    (audio_files : List String) (output_filename : String) : String :=
  let _ := concat_list_content audio_files
  let _ := run ([("ffmpeg"), ("-y"), ("-f"), ("concat"), ("-safe"), ("0"),
                 ("-i"), ("concat-list"), ("-c"), ("copy"), output_filename])
  output_filename

/-- tts.py lines 274 to 291: converts WAV to MP3, returns the output
name; ffmpeg result ignored as in the source. -/
def convert_wav_to_mp3 (run : List String → ProcResult)
    (input_filename output_filename : String) : String :=
  let _ := run ([("ffmpeg"), ("-i"), input_filename, output_filename])
  output_filename

/-- One produced lesson output: its template subdirectory, the file name
stem, the ordered playlist of WAV files fed to concatenation, and the
final MP3 path. -/
structure Artifact where
  template_dir : String
  filename_format : String
  playlist : List String
  mp3_path : String
deriving DecidableEq

/-- tts.py lines 318 to 331: concatenates the playlist into a workspace
WAV and converts it to an MP3 under the template directory. -/
def combine_audio_files_to_mp3 (cfg : Config) (run : List String → ProcResult)
    (audio_files : List String) (filename_format template_dir : String) : Artifact :=
  let combined_wav_filename := concat_wav_files run audio_files
    (cfg.output_dir ++ workspace_dir ++ filename_format ++ (".wav"))
  let combined_mp3_filename := convert_wav_to_mp3 run combined_wav_filename
    (cfg.output_dir ++ template_dir ++ filename_format ++ (".mp3"))
  ⟨template_dir, filename_format, audio_files, combined_mp3_filename⟩

/-- tts.py lines 474 to 494: generates a silent WAV file; the file name
embeds the Python textual form of the duration (str(1.0) is 1.0,
str(4) is 4). -/
def create_silent_wav_file (cfg : Config) (run : List String → ProcResult)
    (seconds_repr : String) : String :=
  let filename := cfg.output_dir ++ workspace_dir ++ ("silence_") ++ seconds_repr ++ ("s.wav")
  let _ := run ([("ffmpeg"), ("-y"), ("-f"), ("lavfi"),
                 ("-i"), ("anullsrc=channel_layout=mono:sample_rate=16000"),
                 ("-t"), seconds_repr, filename])
  filename

/-- Python row[i]: returns the field, or the raised IndexError modelled
as the offending index. -/
def get_field (row : List String) (i : Nat) : Except Nat String :=
  match row.get? i with
  | some v => Except.ok v
  | none => Except.error i

/-- tts.py lines 349 to 353: the five field reads of one lesson row, in
source order; the first out-of-range read raises. -/
def lesson_row_fields (row : List String) :
    Except Nat (String × String × String × String × String) :=
  match get_field row 0 with
  | Except.error i => Except.error i
  | Except.ok phrase_number =>
  match get_field row 1 with
  | Except.error i => Except.error i
  | Except.ok foreign_word_text =>
  match get_field row 2 with
  | Except.error i => Except.error i
  | Except.ok english_word_text =>
  match get_field row 3 with
  | Except.error i => Except.error i
  | Except.ok foreign_phrase_text =>
  match get_field row 4 with
  | Except.error i => Except.error i
  | Except.ok english_phrase_text =>
  Except.ok (phrase_number, foreign_word_text, english_word_text,
             foreign_phrase_text, english_phrase_text)

/-- tts.py lines 355 to 470: for one lesson row, the five synthesis
calls (FW, EW, FP, FP at speed 80, EP) followed by the eight template
assemblies, everything in source order. -/
def lesson_row_outputs (cfg : Config) (run : List String → ProcResult)
    (phrase_number foreign_word_text english_word_text
     foreign_phrase_text english_phrase_text : String) :
    List Artifact × List PollyCall :=
  let short_silence_file := create_silent_wav_file cfg run ("1.0")
  let medium_silence_file := create_silent_wav_file cfg run ("1.5")
  let long_silence_file := create_silent_wav_file cfg run ("4")
  let foreign_word := text_to_wav cfg run cfg.foreign_voice_id cfg.foreign_voice_engine
    foreign_word_text cfg.voice_speed
  let english_word := text_to_wav cfg run cfg.english_voice_id cfg.english_voice_engine
    english_word_text cfg.voice_speed
  let foreign_phrase := text_to_wav cfg run cfg.foreign_voice_id cfg.foreign_voice_engine
    foreign_phrase_text cfg.voice_speed
  let foreign_phrase_slow := text_to_wav cfg run cfg.foreign_voice_id cfg.foreign_voice_engine
    foreign_phrase_text 80
  let english_phrase := text_to_wav cfg run cfg.english_voice_id cfg.english_voice_engine
    english_phrase_text cfg.voice_speed
  let artifact_0 := combine_audio_files_to_mp3 cfg run
    [short_silence_file, foreign_word.1, medium_silence_file, english_word.1,
     short_silence_file]
    (phrase_number ++ (" - ") ++ foreign_word_text ++ (" - ") ++ english_word_text)
    template_0_dir
  let artifact_1 := combine_audio_files_to_mp3 cfg run
    [short_silence_file, english_word.1, medium_silence_file, foreign_word.1,
     short_silence_file]
    (phrase_number ++ (" - ") ++ english_word_text ++ (" - ") ++ foreign_word_text)
    template_1_dir
  let artifact_2 := combine_audio_files_to_mp3 cfg run
    [short_silence_file, foreign_word.1, medium_silence_file, english_word.1,
     medium_silence_file, foreign_phrase.1, long_silence_file, english_phrase.1,
     short_silence_file]
    (phrase_number ++ (" - ") ++ foreign_word_text ++ (" - ") ++ english_word_text
      ++ (" - ") ++ foreign_phrase_text ++ (" - ") ++ english_phrase_text)
    template_2_dir
  let artifact_3 := combine_audio_files_to_mp3 cfg run
    [short_silence_file, english_word.1, medium_silence_file, foreign_word.1,
     medium_silence_file, english_phrase.1, long_silence_file, foreign_phrase.1,
     short_silence_file]
    (phrase_number ++ (" - ") ++ english_word_text ++ (" - ") ++ foreign_word_text
      ++ (" - ") ++ english_phrase_text ++ (" - ") ++ foreign_phrase_text)
    template_3_dir
  let artifact_4 := combine_audio_files_to_mp3 cfg run
    [short_silence_file, english_phrase.1, short_silence_file]
    (phrase_number ++ (" - ") ++ english_phrase_text)
    template_4_dir
  let artifact_5 := combine_audio_files_to_mp3 cfg run
    [short_silence_file, foreign_phrase.1, short_silence_file]
    (phrase_number ++ (" - ") ++ foreign_phrase_text)
    template_5_dir
  let artifact_6 := combine_audio_files_to_mp3 cfg run
    [short_silence_file, foreign_phrase.1, long_silence_file]
    (phrase_number ++ (" - ") ++ foreign_phrase_text)
    template_6_dir
  let artifact_7 := combine_audio_files_to_mp3 cfg run
    [short_silence_file, foreign_phrase_slow.1, long_silence_file]
    (phrase_number ++ (" - ") ++ foreign_phrase_text)
    template_7_dir
  ([artifact_0, artifact_1, artifact_2, artifact_3, artifact_4, artifact_5,
    artifact_6, artifact_7],
   [foreign_word.2, english_word.2, foreign_phrase.2, foreign_phrase_slow.2,
    english_phrase.2])

/-- Processing of one lesson row: read the five fields (raising on a
short row), then produce the row outputs. -/
def lesson_row_step (cfg : Config) (run : List String → ProcResult)
    (row : List String) : Except Nat (List Artifact × List PollyCall) :=
  match lesson_row_fields row with
  | Except.error i => Except.error i
  | Except.ok (phrase_number, foreign_word_text, english_word_text,
               foreign_phrase_text, english_phrase_text) =>
    Except.ok (lesson_row_outputs cfg run phrase_number foreign_word_text
      english_word_text foreign_phrase_text english_phrase_text)

/-- tts.py lines 338 to 470: rows are processed strictly in sequence; an
uncaught IndexError on any row aborts the whole run at that row. -/
def lessons_run (cfg : Config) (run : List String → ProcResult) :
    List (List String) → Except Nat (List Artifact × List PollyCall)
  | [] => Except.ok ([], [])
  | row :: rest =>
    match lesson_row_step cfg run row with
    | Except.error i => Except.error i
    | Except.ok (arts, calls) =>
      match lessons_run cfg run rest with
      | Except.error i => Except.error i
      | Except.ok (arts2, calls2) => Except.ok (arts ++ arts2, calls ++ calls2)

/-- The artifacts of a run result; a raised error yields none. -/
def lesson_arts_of (res : Except Nat (List Artifact × List PollyCall)) : List Artifact :=
  match res with
  | Except.ok (arts, _) => arts
  | Except.error _ => []

/-- The synthesis calls of a run result; a raised error yields none. -/
def lesson_calls_of (res : Except Nat (List Artifact × List PollyCall)) : List PollyCall :=
  match res with
  | Except.ok (_, calls) => calls
  | Except.error _ => []

/-- Whether an Except value is a success. -/
def except_is_ok {e a : Type} (res : Except e a) : Bool :=
  match res with
  | Except.ok _ => true
  | Except.error _ => false

/-- tts.py lines 502 to 510: the accumulator loop of
phrase_pieces_to_pyramid_phrases. -/
def pyramid_loop (pyramid_phrase : String) : List String → List String
  | [] => []
  | piece :: rest => (pyramid_phrase ++ piece) :: pyramid_loop (pyramid_phrase ++ piece) rest

/-- tts.py lines 499 to 510: progressive concatenation of the pieces. -/
def phrase_pieces_to_pyramid_phrases (phrase_pieces : List String) : List String :=
  pyramid_loop ("") phrase_pieces

/-- tts.py lines 526 to 563: the column loop of pyramid_from_csv; the
first column is the phrase number, later columns are kept only when
non-empty. -/
def pyramid_gather (column_count : Nat) : List String → List String
  | [] => []
  | phrase_piece :: rest =>
    if column_count = 0 then pyramid_gather (column_count + 1) rest
    else if phrase_piece = ("") then pyramid_gather (column_count + 1) rest
    else phrase_piece :: pyramid_gather (column_count + 1) rest

/-- tts.py lines 570 to 577: each pyramid phrase file is followed by the
short silence file in the playlist. -/
def pyramid_interleave (silence_file : String) : List String → List String
  | [] => []
  | f :: rest => f :: silence_file :: pyramid_interleave silence_file rest

/-- tts.py lines 626 to 634: after the pyramid output of a row is
written, the code still reads columns 0 to 4 of the row; the first
out-of-range read raises IndexError. -/
def pyramid_tail_fields (row : List String) : Except Nat Unit :=
  match get_field row 0 with
  | Except.error i => Except.error i
  | Except.ok _ =>
  match get_field row 1 with
  | Except.error i => Except.error i
  | Except.ok _ =>
  match get_field row 2 with
  | Except.error i => Except.error i
  | Except.ok _ =>
  match get_field row 3 with
  | Except.error i => Except.error i
  | Except.ok _ =>
  match get_field row 4 with
  | Except.error i => Except.error i
  | Except.ok _ => Except.ok ()

/-- Separator join; mirrors Python str.join. -/
def joinSep (sep : String) : List String → String
  | [] => ""
  | [x] => x
  | x :: xs => x ++ sep ++ joinSep sep xs

/-- tts.py lines 524 to 634: processing of one pyramid row: gather the
non-empty pieces, build cumulative phrases, synthesize each, interleave
with short silence, write one Pyramid output, then perform the trailing
field reads (which raise on rows with fewer than five columns). -/
def pyramid_row_step (cfg : Config) (run : List String → ProcResult)
    (row : List String) : (Artifact × List PollyCall) × Except Nat Unit :=
  let short_silence_file := create_silent_wav_file cfg run ("1.0")
  let phrase_number := match row.get? 0 with
    | some v => v
    | none => ("0")
  let phrase_pieces := pyramid_gather 0 row
  let pyramid_phrases := phrase_pieces_to_pyramid_phrases phrase_pieces
  let results := pyramid_phrases.map (fun pyramid_phrase =>
    text_to_wav cfg run cfg.foreign_voice_id cfg.foreign_voice_engine
      pyramid_phrase cfg.voice_speed)
  let pyramid_phrase_files := pyramid_interleave short_silence_file (results.map Prod.fst)
  let phrase_text := joinSep (" ") phrase_pieces
  let filename_format := phrase_number ++ (" - ") ++ phrase_text ++ (" - Pyramid")
  let artifact := combine_audio_files_to_mp3 cfg run pyramid_phrase_files
    filename_format template_8_dir
  ((artifact, results.map Prod.snd), pyramid_tail_fields row)

/-- tts.py lines 513 to 634: pyramid rows in sequence; a raised
IndexError aborts the run after the offending row's output was
written. -/
def pyramid_run (cfg : Config) (run : List String → ProcResult) :
    List (List String) → (List Artifact × List PollyCall) × Except Nat Unit
  | [] => (([], []), Except.ok ())
  | row :: rest =>
    let step := pyramid_row_step cfg run row
    match step.2 with
    | Except.error i => (([step.1.1], step.1.2), Except.error i)
    | Except.ok _ =>
      let tail := pyramid_run cfg run rest
      ((step.1.1 :: tail.1.1, step.1.2 ++ tail.1.2), tail.2)

/-- The key of a synthesis call for cache-duplication statements: voice
identity, engine, and the SSML payload (which determines text and
speed). -/
def call_key (c : PollyCall) : String × String × String :=
  (c.voice_id, c.engine, c.ssml)

/-- Table of the eight lesson template subdirectories, in assembly
order, as the specification describes them. -/
def spec_template_dirs : List String :=
  [template_0_dir, template_1_dir, template_2_dir, template_3_dir,
   template_4_dir, template_5_dir, template_6_dir, template_7_dir]

/-- Table of the designated text fields of the eight lesson templates,
in template-defined order, as the specification describes them. -/
def spec_template_fields (foreign_word_text english_word_text
    foreign_phrase_text english_phrase_text : String) : List (List String) :=
  [[foreign_word_text, english_word_text],
   [english_word_text, foreign_word_text],
   [foreign_word_text, english_word_text, foreign_phrase_text, english_phrase_text],
   [english_word_text, foreign_word_text, english_phrase_text, foreign_phrase_text],
   [english_phrase_text],
   [foreign_phrase_text],
   [foreign_phrase_text],
   [foreign_phrase_text]]

/-- Follows the words of the specification: the escape of one
markup-significant character (ampersand, angle brackets, double quote)
by its entity, other characters unchanged. -/
def spec_escape_char (c : Char) : List Char :=
  if c = Char.ofNat 38 then ("&amp;").data
  else if c = Char.ofNat 60 then ("&lt;").data
  else if c = Char.ofNat 62 then ("&gt;").data
  else if c = Char.ofNat 34 then ("&quot;").data
  else [c]

/-- Escape of a character list, character by character. -/
def spec_escape_list : List Char → List Char
  | [] => []
  | c :: rest => spec_escape_char c ++ spec_escape_list rest

/-- Follows the words of the specification: markup escaping of a text
before embedding it in the SSML payload. -/
def spec_escape_markup (s : String) : String :=
  String.mk (spec_escape_list s.data)

/-- Whether a character is markup-significant (ampersand, angle
brackets, double quote). -/
def markup_significant (c : Char) : Bool :=
  (c = Char.ofNat 38) || (c = Char.ofNat 60) || (c = Char.ofNat 62) || (c = Char.ofNat 34)

/-- Whether a text contains a markup-significant character. -/
def has_markup_char (s : String) : Bool :=
  s.data.any markup_significant

/-- A concrete configuration: the defaults of tts.py with the voices of
the specification scenario (foreign Lupe, native Joanna, speed 100). -/
def cfg0 : Config :=
  ⟨("_TTS-Output/"), ("Lupe"), ("Joanna"), 100, ("standard"), ("standard")⟩

/-- An oracle on which every external command succeeds. -/
def run_ok : List String → ProcResult :=
  fun _ => ⟨0, (""), ("")⟩

/-- An oracle on which every external command fails with exit code 1. -/
def run_fail : List String → ProcResult :=
  fun _ => ⟨1, (""), ("external tool failure")⟩

/-- A sample valid lesson row (the scenario row of the specification). -/
def sample_row_1 : List String :=
  [("1"), ("gato"), ("cat"), ("el gato es negro"), ("the cat is black")]

/-- A second sample valid lesson row. -/
def sample_row_2 : List String :=
  [("2"), ("perro"), ("dog"), ("el perro corre"), ("the dog runs")]

/-- The artifacts produced for one row. -/
def lesson_row_arts (cfg : Config) (run : List String → ProcResult)
    (row : List String) : List Artifact :=
  lesson_arts_of (lesson_row_step cfg run row)

theorem string_data_mk (l : List Char) : (String.mk l).data = l := rfl

theorem string_data_append (a b : String) : (a ++ b).data = a.data ++ b.data := by
  cases a; cases b; rfl

theorem string_mk_append (a b : String) : String.mk (a.data ++ b.data) = a ++ b := by
  cases a; cases b; rfl

theorem string_append_assoc (a b c : String) : (a ++ b) ++ c = a ++ (b ++ c) := by
  cases a; cases b; cases c
  show String.mk _ = String.mk _
  rw [List.append_assoc]

theorem string_append_empty (a : String) : a ++ ("") = a := by
  cases a
  show String.mk _ = String.mk _
  rw [List.append_nil]

theorem string_empty_append (a : String) : ("") ++ a = a := by
  cases a
  show String.mk _ = String.mk _
  rw [List.nil_append]

theorem replace_pcm_wav_length (l : List Char) :
    (replace_pcm_wav l).length = l.length := by
  induction l using replace_pcm_wav.induct <;> simp [replace_pcm_wav, *]

theorem starts_pcm_iff (l : List Char) :
    starts_pcm l = true ↔ ∃ r, l = ('.' :: 'p' :: 'c' :: 'm' :: r) := by
  rw [starts_pcm.eq_def]
  split
  · simp
  · rename_i h
    simp
    intro r hr
    exact h r hr

theorem replace_pcm_wav_no_match (c : Char) (rest : List Char)
    (h : starts_pcm (c :: rest) = false) :
    replace_pcm_wav (c :: rest) = c :: replace_pcm_wav rest := by
  rw [replace_pcm_wav.eq_def]
  split
  · rename_i heq
    exfalso
    have : starts_pcm (c :: rest) = true := by
      rw [starts_pcm_iff]
      exact ⟨_, heq⟩
    rw [this] at h
    exact Bool.noConfusion h
  · rename_i c2 r2 heq
    rw [List.cons.injEq] at heq
    rw [heq.1, heq.2]
  · rename_i heq
    exact List.noConfusion heq

theorem starts_pcm_append_pcm (c : Char) (rest : List Char)
    (h : starts_pcm (c :: rest) = false) :
    starts_pcm (c :: (rest ++ ('.' :: 'p' :: 'c' :: 'm' :: []))) = false := by
  cases hs : starts_pcm (c :: (rest ++ ('.' :: 'p' :: 'c' :: 'm' :: [])))
  · rfl
  · exfalso
    obtain ⟨r, hr⟩ := (starts_pcm_iff _).mp hs
    rcases rest with _ | ⟨a, _ | ⟨b, _ | ⟨d, tail⟩⟩⟩
    · simp only [List.nil_append, List.cons.injEq] at hr
      exact absurd hr.2.1 (by decide)
    · simp only [List.cons_append, List.nil_append, List.cons.injEq] at hr
      exact absurd hr.2.2.1 (by decide)
    · simp only [List.cons_append, List.nil_append, List.cons.injEq] at hr
      exact absurd hr.2.2.2.1 (by decide)
    · simp only [List.cons_append, List.cons.injEq] at hr
      have : starts_pcm (c :: a :: b :: d :: tail) = true := by
        rw [starts_pcm_iff]
        exact ⟨tail, by rw [hr.1, hr.2.1, hr.2.2.1, hr.2.2.2.1]⟩
      rw [this] at h
      exact Bool.noConfusion h

theorem replace_pcm_wav_append_pcm (l : List Char) (h : has_pcm l = false) :
    replace_pcm_wav (l ++ ('.' :: 'p' :: 'c' :: 'm' :: []))
      = l ++ ('.' :: 'w' :: 'a' :: 'v' :: []) := by
  induction l with
  | nil => rfl
  | cons c rest ih =>
    have hh : starts_pcm (c :: rest) = false ∧ has_pcm rest = false := by
      have := h
      simp only [has_pcm, Bool.or_eq_false_iff] at this
      exact this
    rw [List.cons_append, replace_pcm_wav_no_match c (rest ++ ('.' :: 'p' :: 'c' :: 'm' :: []))
      (starts_pcm_append_pcm c rest hh.1), ih hh.2, List.cons_append]

theorem spec_escape_char_len_pos (c : Char) : 1 ≤ (spec_escape_char c).length := by
  unfold spec_escape_char
  repeat' split
  all_goals first | decide | simp

theorem spec_escape_char_len_sig (c : Char) (h : markup_significant c = true) :
    2 ≤ (spec_escape_char c).length := by
  unfold markup_significant at h
  simp only [Bool.or_eq_true, decide_eq_true_eq] at h
  rcases h with ((h | h) | h) | h <;> rw [h] <;> decide

theorem spec_escape_list_len_ge (l : List Char) :
    l.length ≤ (spec_escape_list l).length := by
  induction l with
  | nil => simp [spec_escape_list]
  | cons c rest ih =>
    have := spec_escape_char_len_pos c
    simp only [spec_escape_list, List.length_append, List.length_cons]
    omega

theorem spec_escape_list_len_gt (l : List Char) (h : l.any markup_significant = true) :
    l.length < (spec_escape_list l).length := by
  induction l with
  | nil => exact Bool.noConfusion h
  | cons c rest ih =>
    simp only [List.any_cons, Bool.or_eq_true] at h
    simp only [spec_escape_list, List.length_append, List.length_cons]
    rcases h with h | h
    · have h1 := spec_escape_char_len_sig c h
      have h2 := spec_escape_list_len_ge rest
      omega
    · have h1 := spec_escape_char_len_pos c
      have h2 := ih h
      omega

theorem foldl_string_append_shift (t : List String) : ∀ (a b : String),
    t.foldl (fun r s => r ++ s) (a ++ b) = a ++ t.foldl (fun r s => r ++ s) b := by
  induction t with
  | nil => intro a b; simp
  | cons g t ih =>
    intro a b
    simp only [List.foldl_cons]
    rw [string_append_assoc, ih]

theorem string_join_cons (s : String) (l : List String) :
    String.join (s :: l) = s ++ String.join l := by
  simp only [String.join, List.foldl_cons]
  have h0 : (("") : String) ++ s = s ++ ("") := by
    rw [string_empty_append, string_append_empty]
  rw [h0, foldl_string_append_shift]

theorem concat_foldl_join (audio_files : List String) (acc : String) :
    audio_files.foldl (fun a filename => a ++ concat_line filename) acc
      = acc ++ String.join (audio_files.map concat_line) := by
  induction audio_files generalizing acc with
  | nil => simp [String.join, string_append_empty]
  | cons f rest ih =>
    simp only [List.foldl_cons, List.map_cons]
    rw [ih, string_join_cons, string_append_assoc]

theorem pyramid_gather_succ (l : List String) : ∀ (n : Nat),
    pyramid_gather (n + 1) l = l.filter (fun p => p != ("")) := by
  induction l with
  | nil => intro n; rfl
  | cons p rest ih =>
    intro n
    by_cases hp : p = ("")
    · simp [pyramid_gather, hp, ih, List.filter_cons]
    · simp [pyramid_gather, hp, ih, List.filter_cons]

theorem lesson_row_fields_short (row : List String) (h : row.length < 5) :
    lesson_row_fields row = Except.error row.length := by
  rcases row with _ | ⟨a, _ | ⟨b, _ | ⟨c, _ | ⟨d, _ | ⟨e, r⟩⟩⟩⟩⟩
  · rfl
  · rfl
  · rfl
  · rfl
  · rfl
  · exfalso
    simp only [List.length_cons] at h
    omega

theorem lesson_row_fields_cons (n fw ew fp ep : String) (rest : List String) :
    lesson_row_fields (n :: fw :: ew :: fp :: ep :: rest)
      = Except.ok (n, fw, ew, fp, ep) := rfl

theorem lesson_row_fields_of_len (row : List String) (h : 5 ≤ row.length) :
    ∃ v, lesson_row_fields row = Except.ok v := by
  rcases row with _ | ⟨a, _ | ⟨b, _ | ⟨c, _ | ⟨d, _ | ⟨e, r⟩⟩⟩⟩⟩
  · exfalso; simp at h
  · exfalso; simp at h
  · exfalso; simp only [List.length_cons, List.length_nil] at h; omega
  · exfalso; simp only [List.length_cons, List.length_nil] at h; omega
  · exfalso; simp only [List.length_cons, List.length_nil] at h; omega
  · exact ⟨_, rfl⟩

theorem pyramid_tail_fields_short (row : List String) (h : row.length < 5) :
    pyramid_tail_fields row = Except.error row.length := by
  rcases row with _ | ⟨a, _ | ⟨b, _ | ⟨c, _ | ⟨d, _ | ⟨e, r⟩⟩⟩⟩⟩
  · rfl
  · rfl
  · rfl
  · rfl
  · rfl
  · exfalso
    simp only [List.length_cons] at h
    omega

theorem pyramid_tail_fields_of_len (row : List String) (h : 5 ≤ row.length) :
    pyramid_tail_fields row = Except.ok () := by
  rcases row with _ | ⟨a, _ | ⟨b, _ | ⟨c, _ | ⟨d, _ | ⟨e, r⟩⟩⟩⟩⟩
  · exfalso; simp at h
  · exfalso; simp at h
  · exfalso; simp only [List.length_cons, List.length_nil] at h; omega
  · exfalso; simp only [List.length_cons, List.length_nil] at h; omega
  · exfalso; simp only [List.length_cons, List.length_nil] at h; omega
  · rfl

theorem pyramid_tail_fields_ok_iff (row : List String) :
    pyramid_tail_fields row = Except.ok () ↔ 5 ≤ row.length := by
  constructor
  · intro h
    by_contra hlen
    push_neg at hlen
    rw [pyramid_tail_fields_short row hlen] at h
    exact Except.noConfusion h
  · exact pyramid_tail_fields_of_len row

theorem lesson_row_outputs_indep (cfg : Config) (r1 r2 : List String → ProcResult)
    (n fw ew fp ep : String) :
    lesson_row_outputs cfg r1 n fw ew fp ep = lesson_row_outputs cfg r2 n fw ew fp ep := rfl

theorem lesson_row_step_indep (cfg : Config) (r1 r2 : List String → ProcResult)
    (row : List String) :
    lesson_row_step cfg r1 row = lesson_row_step cfg r2 row := by
  unfold lesson_row_step
  cases h : lesson_row_fields row with
  | error i => rfl
  | ok v => rfl

theorem lessons_run_indep (cfg : Config) (r1 r2 : List String → ProcResult) :
    ∀ rows, lessons_run cfg r1 rows = lessons_run cfg r2 rows
  | [] => rfl
  | row :: rest => by
    simp only [lessons_run]
    rw [lesson_row_step_indep cfg r1 r2 row, lessons_run_indep cfg r1 r2 rest]

theorem lessons_run_all_ok (cfg : Config) (run : List String → ProcResult) :
    ∀ rows, (∀ row ∈ rows, 5 ≤ row.length) →
      except_is_ok (lessons_run cfg run rows) = true
  | [] => fun _ => rfl
  | row :: rest => fun h => by
    obtain ⟨⟨n, fw, ew, fp, ep⟩, hv⟩ :=
      lesson_row_fields_of_len row (h row (List.mem_cons_self row rest))
    have ih := lessons_run_all_ok cfg run rest
      (fun r hr => h r (List.mem_cons_of_mem row hr))
    simp only [lessons_run, lesson_row_step, hv]
    cases hrest : lessons_run cfg run rest with
    | error i => rw [hrest] at ih; exact Bool.noConfusion ih
    | ok v2 => exact rfl

theorem lessons_run_short_abort (cfg : Config) (run : List String → ProcResult)
    (row : List String) (rest : List (List String)) (h : row.length < 5) :
    lessons_run cfg run (row :: rest) = Except.error row.length := by
  simp only [lessons_run, lesson_row_step, lesson_row_fields_short row h]

/-- Claim C1, corrected.  tts.py has no clip cache: every text_to_wav
call performs its own synthesis call, so one lesson row always issues
exactly five synthesis calls, keyed FW, EW, FP, FP at speed 80, EP, one
per field occurrence; a (voice, text) pair occurring in several field
slots is synthesized once per occurrence, not once per pair. -/
theorem C1_theorem (cfg : Config) (run : List String → ProcResult)
    (n fw ew fp ep : String) (rest : List String) :
    (lesson_calls_of (lesson_row_step cfg run (n :: fw :: ew :: fp :: ep :: rest))).map call_key
      = [(cfg.foreign_voice_id, cfg.foreign_voice_engine, ssml_text_of cfg.voice_speed fw),
         (cfg.english_voice_id, cfg.english_voice_engine, ssml_text_of cfg.voice_speed ew),
         (cfg.foreign_voice_id, cfg.foreign_voice_engine, ssml_text_of cfg.voice_speed fp),
         (cfg.foreign_voice_id, cfg.foreign_voice_engine, ssml_text_of 80 fp),
         (cfg.english_voice_id, cfg.english_voice_engine, ssml_text_of cfg.voice_speed ep)] := rfl

/-- Claim C1 as stated is false: on the row 1,gato,cat,gato,... the pair
(Lupe, standard, gato at speed 100) is synthesized twice within one
row's processing, not at most once. -/
theorem C1_counterexample :
    ¬ (∀ k : String × String × String,
        List.count k ((lesson_calls_of (lesson_row_step cfg0 run_ok
          [("1"), ("gato"), ("cat"), ("gato"), ("the cat is black")])).map call_key) ≤ 1) :=
  fun h => absurd (h (("Lupe"), ("standard"), ssml_text_of 100 ("gato"))) (by decide)

/-- Claim C2, confirmed.  In pyramid mode the cumulative phrases of a
row are the progressive concatenations of the row's pieces (the columns
after the first) with empty pieces removed first; the two example rows
of the specification evaluate exactly as stated. -/
theorem C2_theorem :
    (∀ row : List String,
        phrase_pieces_to_pyramid_phrases (pyramid_gather 0 row)
          = phrase_pieces_to_pyramid_phrases ((row.drop 1).filter (fun p => p != (""))))
    ∧ phrase_pieces_to_pyramid_phrases (pyramid_gather 0 [("1"), ("I "), ("am "), ("going")])
        = [("I "), ("I am "), ("I am going")]
    ∧ phrase_pieces_to_pyramid_phrases (pyramid_gather 0 [("1"), ("I "), (""), ("going")])
        = [("I "), ("I going")] := by
  refine ⟨?_, by decide, by decide⟩
  intro row
  cases row with
  | nil => rfl
  | cons x rest =>
    have h0 : pyramid_gather 0 (x :: rest) = pyramid_gather 1 rest := by
      simp [pyramid_gather]
    rw [h0, pyramid_gather_succ rest 0, List.drop_one, List.tail_cons]

/-- Claim C8, confirmed.  The ffmpeg concat list is exactly one line per
playlist entry, in playlist order, with repeated entries written once
per occurrence: the written content is the join of the per-entry lines
and each entry is spliced in sequence. -/
theorem C8_theorem (audio_files : List String) (f : String) :
    concat_list_content audio_files = String.join (audio_files.map concat_line)
    ∧ concat_list_content (f :: audio_files)
        = concat_line f ++ concat_list_content audio_files := by
  constructor
  · rw [concat_list_content, concat_foldl_join, string_empty_append]
  · rw [concat_list_content, concat_list_content, List.foldl_cons,
      concat_foldl_join, concat_foldl_join, string_empty_append, string_empty_append]

/-- Claim C3, corrected.  text_to_wav embeds the text verbatim in the
SSML payload; no markup escaping is performed, so for every text holding
a markup-significant character the payload differs from the payload an
escaping implementation would build. -/
theorem C3_theorem (speed : Nat) (t : String) (h : has_markup_char t = true) :
    ssml_text_of speed t = ssml_wrap speed t
    ∧ ssml_text_of speed t ≠ ssml_wrap speed (spec_escape_markup t) := by
  refine ⟨rfl, ?_⟩
  intro heq
  have hlen := congrArg (fun s : String => s.data.length) heq
  simp only [ssml_text_of, ssml_wrap, spec_escape_markup, string_data_append,
    string_data_mk, List.length_append] at hlen
  have hgt := spec_escape_list_len_gt t.data (by
    have := h
    simp only [has_markup_char] at this
    exact this)
  omega

/-- Claim C3 as stated is false at the text a<b: the payload embeds the
raw text, not its escaped form. -/
theorem C3_counterexample :
    has_markup_char ("a<b") = true
    ∧ ssml_text_of 100 ("a<b") = ssml_wrap 100 ("a<b")
    ∧ ssml_text_of 100 ("a<b") ≠ ssml_wrap 100 (spec_escape_markup ("a<b")) := by
  refine ⟨by decide, rfl, by decide⟩

/-- Witness for C3_theorem at speed 100 and text a<b. -/
theorem C3_witness :
    has_markup_char ("a<b") = true
    ∧ (ssml_text_of 100 ("a<b") = ssml_wrap 100 ("a<b")
       ∧ ssml_text_of 100 ("a<b") ≠ ssml_wrap 100 (spec_escape_markup ("a<b"))) :=
  ⟨by decide, C3_theorem 100 ("a<b") (by decide)⟩

/-- Claim C4, confirmed.  A lesson row with five fields yields exactly
eight artifacts, one per template subdirectory (all eight distinct), each
file name stem starting with the sequence number and the separator, and
the FW-EW template playlist is short silence, foreign word, medium
silence, english word, short silence. -/
theorem C4_theorem (cfg : Config) (run : List String → ProcResult)
    (n fw ew fp ep : String) (rest : List String) :
    (lesson_row_arts cfg run (n :: fw :: ew :: fp :: ep :: rest)).length = 8
    ∧ (lesson_row_arts cfg run (n :: fw :: ew :: fp :: ep :: rest)).map
        (fun a => a.template_dir) = spec_template_dirs
    ∧ ((lesson_row_arts cfg run (n :: fw :: ew :: fp :: ep :: rest)).map
        (fun a => a.template_dir)).Nodup
    ∧ (lesson_row_arts cfg run (n :: fw :: ew :: fp :: ep :: rest)).map
        (fun a => a.filename_format)
      = [n ++ (" - ") ++ (fw ++ (" - ") ++ ew),
         n ++ (" - ") ++ (ew ++ (" - ") ++ fw),
         n ++ (" - ") ++ (fw ++ (" - ") ++ (ew ++ (" - ") ++ (fp ++ (" - ") ++ ep))),
         n ++ (" - ") ++ (ew ++ (" - ") ++ (fw ++ (" - ") ++ (ep ++ (" - ") ++ fp))),
         n ++ (" - ") ++ ep,
         n ++ (" - ") ++ fp,
         n ++ (" - ") ++ fp,
         n ++ (" - ") ++ fp]
    ∧ ((lesson_row_arts cfg run (n :: fw :: ew :: fp :: ep :: rest)).head?.map
        (fun a => a.playlist))
      = some [create_silent_wav_file cfg run ("1.0"),
              (text_to_wav cfg run cfg.foreign_voice_id cfg.foreign_voice_engine
                fw cfg.voice_speed).1,
              create_silent_wav_file cfg run ("1.5"),
              (text_to_wav cfg run cfg.english_voice_id cfg.english_voice_engine
                ew cfg.voice_speed).1,
              create_silent_wav_file cfg run ("1.0")] := by
  refine ⟨rfl, rfl, ?_, ?_, rfl⟩
  · show spec_template_dirs.Nodup
    decide
  · simp only [lesson_row_arts, lesson_arts_of, lesson_row_step, lesson_row_fields_cons,
      lesson_row_outputs, combine_audio_files_to_mp3, List.map_cons, List.map_nil]
    simp [string_append_assoc]

/-- Claim C5, corrected.  tts.py never inspects the result of an
external synthesis or conversion command: the run result is independent
of the oracle outcomes, and a run over well-formed rows finishes
successfully whatever the external tools report.  External failures are
therefore not run-fatal. -/
theorem C5_theorem (cfg : Config) (r1 r2 : List String → ProcResult)
    (rows : List (List String)) :
    lessons_run cfg r1 rows = lessons_run cfg r2 rows
    ∧ ((∀ row ∈ rows, 5 ≤ row.length) → except_is_ok (lessons_run cfg r1 rows) = true) :=
  ⟨lessons_run_indep cfg r1 r2 rows, lessons_run_all_ok cfg r1 rows⟩

/-- Claim C5 as stated is false: with every external command failing,
the two-row lesson run still completes successfully and produces all
sixteen artifacts instead of stopping with a non-zero status. -/
theorem C5_counterexample :
    except_is_ok (lessons_run cfg0 run_fail [sample_row_1, sample_row_2]) = true
    ∧ (lesson_arts_of (lessons_run cfg0 run_fail [sample_row_1, sample_row_2])).length = 16 := by
  exact ⟨rfl, rfl⟩

/-- Witness for C5_theorem on two concrete rows with the failing
oracle. -/
theorem C5_witness :
    (∀ row ∈ [sample_row_1, sample_row_2], 5 ≤ row.length)
    ∧ (lessons_run cfg0 run_fail [sample_row_1, sample_row_2]
        = lessons_run cfg0 run_ok [sample_row_1, sample_row_2])
    ∧ except_is_ok (lessons_run cfg0 run_fail [sample_row_1, sample_row_2]) = true := by
  have h := C5_theorem cfg0 run_fail run_ok [sample_row_1, sample_row_2]
  exact ⟨by decide, h.1, h.2 (by decide)⟩

/-- Claim C6, corrected.  A lesson row with fewer than five fields
raises an uncaught IndexError (modelled as the offending index, which is
the row's length): tts.py aborts the run at that row instead of
skipping it and continuing. -/
theorem C6_theorem (cfg : Config) (run : List String → ProcResult)
    (row : List String) (rest : List (List String)) (h : row.length < 5) :
    lessons_run cfg run (row :: rest) = Except.error row.length :=
  lessons_run_short_abort cfg run row rest h

/-- Claim C6 as stated is false: on a two-field row followed by a valid
row the run aborts with the IndexError instead of continuing, and no
artifact of the subsequent valid row is produced. -/
theorem C6_counterexample :
    except_is_ok (lessons_run cfg0 run_ok [[("1"), ("gato")], sample_row_2]) = false
    ∧ lesson_arts_of (lessons_run cfg0 run_ok [[("1"), ("gato")], sample_row_2]) = [] := by
  exact ⟨rfl, rfl⟩

/-- Witness for C6_theorem at a concrete two-field row. -/
theorem C6_witness :
    (([("1"), ("gato")] : List String).length < 5)
    ∧ lessons_run cfg0 run_ok [[("1"), ("gato")], sample_row_2] = Except.error 2 :=
  ⟨by decide, C6_theorem cfg0 run_ok [("1"), ("gato")] [sample_row_2] (by decide)⟩

/-- Claim C7, confirmed.  For a fixed row the eight output MP3 paths are
exactly the sequence number joined with each template's designated text
fields by the fixed separator, with the mp3 extension, under the
template's subdirectory below the output root; the whole row result is
independent of the external oracle (hence of prior run state). -/
theorem C7_theorem (cfg : Config) (r1 r2 : List String → ProcResult)
    (n fw ew fp ep : String) (rest : List String) :
    (lesson_row_arts cfg r1 (n :: fw :: ew :: fp :: ep :: rest)).map (fun a => a.mp3_path)
      = List.zipWith
          (fun d fields => cfg.output_dir ++ d ++ (joinSep (" - ") (n :: fields) ++ (".mp3")))
          spec_template_dirs (spec_template_fields fw ew fp ep)
    ∧ lesson_row_step cfg r1 (n :: fw :: ew :: fp :: ep :: rest)
        = lesson_row_step cfg r2 (n :: fw :: ew :: fp :: ep :: rest) := by
  constructor
  · simp only [lesson_row_arts, lesson_arts_of, lesson_row_step, lesson_row_fields_cons,
      lesson_row_outputs, combine_audio_files_to_mp3, convert_wav_to_mp3,
      concat_wav_files, spec_template_dirs, spec_template_fields, List.zipWith,
      List.map_cons, List.map_nil, joinSep]
    simp [string_append_assoc]
  · exact lesson_row_step_indep cfg r1 r2 (n :: fw :: ew :: fp :: ep :: rest)

/-- Claim C9, confirmed.  A pyramid row finishes without error exactly
when it has at least five columns; whatever the row, its Pyramid output
is produced first, and a shorter row then aborts the run with the
IndexError raised by the trailing field reads, leaving later rows
unprocessed. -/
theorem C9_theorem (cfg : Config) (run : List String → ProcResult)
    (row : List String) (rest : List (List String)) :
    ((pyramid_row_step cfg run row).2 = Except.ok () ↔ 5 ≤ row.length)
    ∧ (pyramid_run cfg run (row :: rest)).1.1.head?
        = some (pyramid_row_step cfg run row).1.1
    ∧ (row.length < 5 → pyramid_run cfg run (row :: rest)
        = (([(pyramid_row_step cfg run row).1.1], (pyramid_row_step cfg run row).1.2),
           Except.error row.length)) := by
  have hsnd : (pyramid_row_step cfg run row).2 = pyramid_tail_fields row := rfl
  refine ⟨by rw [hsnd]; exact pyramid_tail_fields_ok_iff row, ?_, ?_⟩
  · simp only [pyramid_run]
    cases h : pyramid_tail_fields row with
    | error i =>
      rw [hsnd, h]
      rfl
    | ok u =>
      rw [hsnd, h]
      rfl
  · intro hlen
    simp only [pyramid_run]
    rw [hsnd, pyramid_tail_fields_short row hlen]

/-- Witness for C9_theorem at a concrete one-column row followed by
another row. -/
theorem C9_witness :
    (([("7")] : List String).length < 5)
    ∧ pyramid_run cfg0 run_ok [[("7")], [("9"), ("x")]]
        = (([(pyramid_row_step cfg0 run_ok [("7")]).1.1],
            (pyramid_row_step cfg0 run_ok [("7")]).1.2),
           Except.error 1) :=
  ⟨by decide,
   (C9_theorem cfg0 run_ok [("7")] [[("9"), ("x")]]).2.2 (by decide)⟩

/-- Claim C10, corrected.  The WAV path returned by text_to_wav is the
workspace PCM path (output root, workspace directory, voice id, text and
speed joined by the separator) with every occurrence of .pcm rewritten
to .wav; it is a pure function of voice id, text and speed, identical
for both engines and all oracles, distinct between speeds 80 and 100,
and it equals the plain concatenation ending in .wav exactly when .pcm
does not occur earlier in the constructed path. -/
theorem C10_theorem (cfg : Config) (r1 r2 : List String → ProcResult)
    (v e1 e2 t : String) (s : Nat) :
    (text_to_wav cfg r1 v e1 t s).1
      = String.mk (replace_pcm_wav ((cfg.output_dir ++ workspace_dir ++ v ++ (" - ") ++ t
          ++ (" - ") ++ toString s ++ (".pcm")).data))
    ∧ (text_to_wav cfg r1 v e1 t s).1 = (text_to_wav cfg r2 v e2 t s).1
    ∧ (text_to_wav cfg r1 v e1 t 80).1 ≠ (text_to_wav cfg r1 v e1 t 100).1
    ∧ (has_pcm ((cfg.output_dir ++ workspace_dir ++ v ++ (" - ") ++ t ++ (" - ")
          ++ toString s).data) = false →
        (text_to_wav cfg r1 v e1 t s).1
          = cfg.output_dir ++ workspace_dir ++ v ++ (" - ") ++ t ++ (" - ")
              ++ toString s ++ (".wav")) := by
  refine ⟨rfl, rfl, ?_, ?_⟩
  · intro heq
    have hdata : replace_pcm_wav ((cfg.output_dir ++ workspace_dir ++ v ++ (" - ") ++ t
          ++ (" - ") ++ toString 80 ++ (".pcm")).data)
        = replace_pcm_wav ((cfg.output_dir ++ workspace_dir ++ v ++ (" - ") ++ t
          ++ (" - ") ++ toString 100 ++ (".pcm")).data) :=
      congrArg String.data heq
    have hlen := congrArg List.length hdata
    rw [replace_pcm_wav_length, replace_pcm_wav_length] at hlen
    simp only [string_data_append, List.length_append] at hlen
    have h80 : (toString (80 : Nat)).data.length = 2 := by decide
    have h100 : (toString (100 : Nat)).data.length = 3 := by decide
    omega
  · intro hno
    show String.mk (replace_pcm_wav (((cfg.output_dir ++ workspace_dir ++ v ++ (" - ") ++ t
        ++ (" - ") ++ toString s) ++ (".pcm")).data)) = _
    rw [string_data_append]
    have hp : ((".pcm") : String).data = ('.' :: 'p' :: 'c' :: 'm' :: []) := rfl
    rw [hp, replace_pcm_wav_append_pcm _ hno]
    have hw : ('.' :: 'w' :: 'a' :: 'v' :: []) = ((".wav") : String).data := rfl
    rw [hw, string_mk_append]

/-- Witness for C10_theorem: with voice Lupe and text hola at speed 100
the path has no early .pcm occurrence and equals the plain
concatenation. -/
theorem C10_witness :
    (has_pcm ((cfg0.output_dir ++ workspace_dir ++ ("Lupe") ++ (" - ") ++ ("hola")
        ++ (" - ") ++ toString 100).data) = false)
    ∧ (text_to_wav cfg0 run_ok ("Lupe") ("standard") ("hola") 100).1
        = cfg0.output_dir ++ workspace_dir ++ ("Lupe") ++ (" - ") ++ ("hola")
            ++ (" - ") ++ toString 100 ++ (".wav") :=
  ⟨by decide,
   (C10_theorem cfg0 run_ok run_ok ("Lupe") ("standard") ("standard") ("hola") 100).2.2.2
     (by decide)⟩

/-- Claim C10 as stated is false when the text itself contains .pcm: the
replace-all at tts.py line 210 also rewrites the occurrence inside the
text, so the returned path is not the plain concatenation of the claim. -/
theorem C10_counterexample :
    (text_to_wav cfg0 run_ok ("Lupe") ("standard") ("x.pcm") 100).1
        ≠ cfg0.output_dir ++ workspace_dir ++ ("Lupe") ++ (" - ") ++ ("x.pcm")
            ++ (" - ") ++ toString 100 ++ (".wav")
    ∧ (text_to_wav cfg0 run_ok ("Lupe") ("standard") ("x.pcm") 100).1
        = ("_TTS-Output/_Workspace/Lupe - x.wav - 100.wav") := by
  exact ⟨by decide, rfl⟩
